import Mathlib

/-!
Shallow embedding of the MCP client connection manager and interactive
session loop (Go packages `mcp` and `main` of the mcp-docker client).

The mutable `ClientManager` struct is embedded as an explicit state record
`MgrState`; every Go method that runs under `m.mutex` becomes a pure state
transformer, so the lock-protected critical section corresponds to one
atomic Lean function application.  External effects (SSE client
construction, `Start`, `Initialize`, tool enumeration, agent creation,
the `Generate` goroutine raced against `time.After`) are supplied by
explicit environment records describing each call's outcome, and the
timeouts in `select` statements are embedded by mapping the timeout branch
to its error outcome.  Counters (`ConnLog`) record how many times each
external operation ran and how many backoff sleeps happened.
-/

namespace McpDocker

/-- Errors are carried as their message text, mirroring Go `error` values
observed through `err.Error()`. -/
abbrev Err := String

/-- Case-sensitive substring test, embedding Go `strings.Contains s pat`. -/
def strContains (s pat : String) : Bool :=
  decide (pat.toList <:+: s.toList)

/-- An SSE MCP client handle.  `started` and `initialized` record whether
`Start` and `Initialize` have succeeded on this handle; `id` distinguishes
the successively constructed handles. -/
structure Handle where
  id : Nat
  started : Bool
  initialized : Bool
deriving DecidableEq, Repr

/-- State of `ClientManager` (client.go lines 14-22): the `client` pointer
(`none` embeds Go `nil`), the `isConnected` flag, the `lastError` field and
the number of queued signals in the capacity-1 `reconnect` channel. -/
structure MgrState where
  serverURL : String
  client : Option Handle
  isConnected : Bool
  lastError : Option Err
  reconnectPending : Nat
deriving DecidableEq, Repr

/-- `NewClientManager` (client.go lines 25-31): empty manager, capacity-1
reconnect channel starts empty. -/
def newClientManager (serverURL : String) : MgrState :=
  { serverURL := serverURL
    client := none
    isConnected := false
    lastError := none
    reconnectPending := 0 }

/-- Non-blocking send on the capacity-1 `reconnect` channel: the
`select`/`default` at client.go lines 171-176 enqueues only when the slot
is free and drops the signal otherwise. -/
def sendNonBlocking (c : Nat) : Nat :=
  if c < 1 then c + 1 else c

/-- `MarkConnectionFailed` (client.go lines 154-177): under the lock, set
`isConnected` false, record the error, close and drop the client, then do a
non-blocking send on the reconnect channel. -/
def markConnectionFailed (st : MgrState) (e : Err) : MgrState :=
  { st with
    isConnected := false
    lastError := some e
    client := none
    reconnectPending := sendNonBlocking st.reconnectPending }

/-- `NeedsReconnect` (client.go lines 185-190). -/
def needsReconnect (st : MgrState) : Bool :=
  !st.isConnected || st.client.isNone

/-- Outcome of one `m.client.Start(ctx)` call as observed through the
`select` at client.go lines 81-91: success, an error, or the 5-second
timeout branch. -/
inductive StartOutcome
  | ok
  | fail (e : Err)
  | timedOut
deriving DecidableEq, Repr

/-- The `startErr` value produced for an outcome: the timeout branch
manufactures the error `连接超时` (client.go line 90). -/
def startErrOf : StartOutcome → Option Err
  | .ok => none
  | .fail e => some e
  | .timedOut => some "连接超时"

/-- The error text behind a non-`ok` outcome. -/
def startErrVal : StartOutcome → Err
  | .ok => ""
  | .fail e => e
  | .timedOut => "连接超时"

/-- Environment for one `connect` run: the result of the k-th
`client.NewSSEMCPClient` call (k counts from 0, yielding the new handle's
id on success), the outcome of the k-th `Start` attempt, and the outcome of
the single `Initialize` call. -/
structure ConnectEnv where
  constructResults : Nat → Except Err Nat
  startResults : Nat → StartOutcome
  initResult : Except Err Unit

/-- Counters of external calls made by one `connect` run, plus the number
of 2-second `time.Sleep` backoffs. -/
structure ConnLog where
  constructCalls : Nat
  startAttempts : Nat
  sleeps : Nat
  initCalls : Nat
deriving DecidableEq, Repr

/-- Result of the retry loop at client.go lines 69-112. -/
inductive LoopRes
  /-- `Start` succeeded on the current handle (client.go lines 83-85, 93-95). -/
  | started (h : Handle) (cc : Nat)
  /-- The mid-loop `NewSSEMCPClient` at line 104 failed: the whole
  `connect` call returns at line 108. -/
  | constructFail (e : Err) (cc : Nat)
  /-- All five attempts failed; `h` is the handle constructed after the
  last failure, closed at client.go lines 115-118; the error is the last
  attempt's `startErr`. -/
  | exhausted (lastErr : Err) (h : Handle) (cc : Nat)
deriving DecidableEq, Repr

/-- The retry loop `for retries := 0; retries < 5; retries++` of
client.go lines 71-112, by recursion on the remaining iteration count.
`lastErr` carries `startErr` from the previous iteration so that the
post-loop check at line 114 is the `remaining = 0` case; `cc` counts
constructions so far (indexing `constructResults`); `ai` is the attempt
index. -/
def connectLoop (env : ConnectEnv) :
    Nat → Err → Handle → Nat → Nat → ConnLog → LoopRes × ConnLog
  | 0, lastErr, h, cc, _, log => (.exhausted lastErr h cc, log)
  | remaining + 1, _, h, cc, ai, log =>
    let log1 := { log with startAttempts := log.startAttempts + 1 }
    match startErrOf (env.startResults ai) with
    | none => (.started { h with started := true } cc, log1)
    | some e =>
      match env.constructResults cc with
      | .error ce =>
        (.constructFail ce (cc + 1),
          { log1 with constructCalls := log1.constructCalls + 1 })
      | .ok hid =>
        connectLoop env remaining e ⟨hid, false, false⟩ (cc + 1) (ai + 1)
          { log1 with
            constructCalls := log1.constructCalls + 1
            sleeps := log1.sleeps + 1 }

/-- Structured form of the errors `connect` returns, with the Go
`fmt.Errorf` wrapping texts recoverable via `ConnectErr.message`. -/
inductive ConnectErr
  | constructFailed (e : Err)
  | startExhausted (e : Err)
  | initFailed (e : Err)
deriving DecidableEq, Repr

/-- The underlying cause recorded in `lastError` for each error kind. -/
def ConnectErr.cause : ConnectErr → Err
  | .constructFailed e => e
  | .startExhausted e => e
  | .initFailed e => e

/-- The wrapped message text returned by `connect` (client.go lines 66,
108, 121, 145). -/
def ConnectErr.message : ConnectErr → Err
  | .constructFailed e => "创建MCP客户端失败: " ++ e
  | .startExhausted e => "无法连接到MCP服务器: " ++ e
  | .initFailed e => "初始化MCP客户端失败: " ++ e

/-- `connect` (client.go lines 49-151), called with the manager lock held:
close any previous client, construct a fresh one, run the bounded retry
loop, then `Initialize` under its 10-second context, and publish
`isConnected`/`lastError` accordingly. -/
def connect (env : ConnectEnv) (st : MgrState) :
    MgrState × Option ConnectErr × ConnLog :=
  let st0 := { st with client := none }
  match env.constructResults 0 with
  | .error e =>
    ({ st0 with isConnected := false, lastError := some e },
      some (.constructFailed e), ⟨1, 0, 0, 0⟩)
  | .ok hid =>
    match connectLoop env 5 "" ⟨hid, false, false⟩ 1 0 ⟨1, 0, 0, 0⟩ with
    | (.constructFail e _, log) =>
      ({ st0 with isConnected := false, lastError := some e },
        some (.constructFailed e), log)
    | (.exhausted e _ _, log) =>
      ({ st0 with isConnected := false, lastError := some e },
        some (.startExhausted e), log)
    | (.started h _, log) =>
      let log2 := { log with initCalls := log.initCalls + 1 }
      match env.initResult with
      | .error e =>
        ({ st0 with isConnected := false, lastError := some e },
          some (.initFailed e), log2)
      | .ok _ =>
        ({ st0 with
            client := some { h with initialized := true }
            isConnected := true
            lastError := none },
          none, log2)

/-- `GetClient` (client.go lines 34-46): under the lock, reconnect when the
client is nil or unhealthy, else return the current client.  The final
`Bool` records whether `connect` was run. -/
def getClient (env : ConnectEnv) (st : MgrState) :
    MgrState × Except ConnectErr (Option Handle) × Bool :=
  if st.client.isNone || !st.isConnected then
    match connect env st with
    | (st', some ce, _) => (st', .error ce, true)
    | (st', none, _) => (st', .ok st'.client, true)
  else
    (st, .ok st.client, false)

/-- The manager invariant of the spec: `isConnected = true` implies the
client handle is present and was successfully started and initialized. -/
def MgrInv (st : MgrState) : Prop :=
  st.isConnected = true →
    ∃ h, st.client = some h ∧ h.started = true ∧ h.initialized = true

instance (st : MgrState) : Decidable (MgrInv st) := by
  unfold MgrInv
  infer_instance

/-! ### Tool-set refresher (tools.go, `GetMCPTools`) -/

/-- A tool set: the enumerated list of remote operation names. -/
abbrev ToolSet := List String

/-- `GetMCPTools` (tools.go lines 14-57): get a client through the manager
(propagating the wrapped connect error), then enumerate tools under a
10-second context; on enumeration failure mark the connection failed and
wrap the error; in verbose mode a failing `t.Info` call also errors out
(without marking).  `enumResult` and `infoResult` supply the outcomes of
the two external calls. -/
def getMCPTools (cenv : ConnectEnv) (enumResult : Except Err ToolSet)
    (infoResult : Except Err Unit) (verbose : Bool) (st : MgrState) :
    MgrState × Except Err ToolSet :=
  match getClient cenv st with
  | (st', .error ce, _) => (st', .error ce.message)
  | (st', .ok _, _) =>
    match enumResult with
    | .error e =>
      (markConnectionFailed st' e, .error ("获取MCP工具失败: " ++ e))
    | .ok tools =>
      if verbose then
        match infoResult with
        | .error e => (st', .error ("获取MCP工具信息失败: " ++ e))
        | .ok _ => (st', .ok tools)
      else
        (st', .ok tools)

/-! ### Interactive session loop (main.go, `startInteractionLoop`) and
startup (main.go, `main`) -/

/-- What one loop round surfaces to the user (the `fmt.Println` calls that
report a round's outcome, main.go lines 282-283, 303-304, 340-342,
346-347, 353, 363-364). -/
inductive SurfacedMsg
  /-- the reconnecting advisory printed instead of the raw error,
  main.go lines 340-342. -/
  | reconnecting
  /-- an ordinary business failure, main.go lines 346-347. -/
  | businessFailure (e : Err)
  /-- the AI answer, main.go line 353. -/
  | aiOutput (s : String)
  /-- the outer-guard timeout advisory, main.go lines 363-364. -/
  | requestTimedOut
  /-- tool refresh failed inside the loop, main.go lines 282-283. -/
  | toolsFetchFailure (e : Err)
  /-- agent re-initialization failed inside the loop, main.go lines 303-304. -/
  | agentInitFailure (e : Err)
  /-- a user `更新工具`-style command completed, main.go line 309. -/
  | toolsRefreshed (n : Nat)
deriving DecidableEq, Repr

/-- Fixed keyword set of the transport-failure classifier at main.go
lines 335-338, in source order. -/
def transportKeywords : List String :=
  ["connection", "timeout", "EOF", "Invalid session ID"]

/-- The classifier at main.go lines 335-338: case-sensitive substring
match of the error text against each keyword, joined by `||`. -/
def isTransportError (e : Err) : Bool :=
  strContains e "connection" || strContains e "timeout" ||
    strContains e "EOF" || strContains e "Invalid session ID"

/-- Behaviour of the background `runner.Generate` goroutine raced against
`time.After(50s)` (main.go lines 323-369): either it completes after `t`
seconds with a result, or it never completes. -/
inductive GenBehavior
  /-- `done` is signalled `t` seconds in with result `res` (`.error e`
  embeds a non-nil `generateErr`). -/
  | completes (t : Nat) (res : Except Err String)
  /-- the goroutine hangs forever: only `time.After` can fire. -/
  | hangs

/-- Outcome of one generate phase: the manager state afterwards, the
wall-clock seconds until the caller unblocks, how many times
`MarkConnectionFailed` ran on this path, what is surfaced, and whether the
AI reply was appended to the dialog. -/
structure GenPhaseRes where
  st : MgrState
  unblockTime : Nat
  markCalls : Nat
  surfaced : SurfacedMsg
  appended : Bool
deriving DecidableEq, Repr

/-- The `select` over `done` and `time.After(50 * time.Second)` at main.go
lines 330-369.  `done` wins only if the goroutine completes in under 50
seconds; otherwise the timer branch runs at the 50-second mark: it prints
the timeout advisory, calls `MarkConnectionFailed(命令执行超时)` once and
continues the loop. -/
def genPhase (b : GenBehavior) (st : MgrState) : GenPhaseRes :=
  let timeoutBranch : GenPhaseRes :=
    { st := markConnectionFailed st "命令执行超时"
      unblockTime := 50
      markCalls := 1
      surfaced := .requestTimedOut
      appended := false }
  match b with
  | .hangs => timeoutBranch
  | .completes t res =>
    if t < 50 then
      match res with
      | .error e =>
        if isTransportError e then
          { st := markConnectionFailed st e
            unblockTime := t
            markCalls := 1
            surfaced := .reconnecting
            appended := false }
        else
          { st := st
            unblockTime := t
            markCalls := 0
            surfaced := .businessFailure e
            appended := false }
      | .ok out =>
        { st := st
          unblockTime := t
          markCalls := 0
          surfaced := .aiOutput out
          appended := true }
    else
      timeoutBranch

/-- External inputs of one round of the interaction loop. -/
structure LoopEnv where
  /-- the resolved user message for this round (after the retry logic). -/
  message : String
  /-- whether `time.Since(lastToolUpdateTime) > 10min` held. -/
  intervalElapsed : Bool
  /-- environment for a `connect` run, should `GetMCPTools` trigger one. -/
  cenv : ConnectEnv
  /-- outcome of tool enumeration inside `GetMCPTools`. -/
  enumResult : Except Err ToolSet
  /-- outcome of the `openai.NewChatModel` call inside
  `model.NewChatModel` during the agent rebuild (main.go line 292,
  chat.go lines 21-28): on `.error` the constructor calls `log.Fatal`,
  killing the process. -/
  chatModelResult : Except Err Unit
  /-- outcome of `react.NewAgent` re-initialization. -/
  agentResult : Except Err Unit
  /-- behaviour of the `runner.Generate` goroutine. -/
  gen : GenBehavior

/-- How one loop round ends.  `exitProcess` models the two paths by
which a loop round kills the process: the stdin scanner error that
`panic`s (main.go lines 249-251) and unwinds to `main`'s deferred
`recover`, which calls `os.Exit(1)` (main.go lines 48-57), and the
`log.Fatal` inside `model.NewChatModel` during the agent rebuild
(main.go line 292, chat.go lines 26-28). -/
inductive StepOutcome
  /-- the user typed `exit`: `startInteractionLoop` returns (main.go
  lines 259-261). -/
  | exitLoop
  /-- the round finished or `continue`d: back to reading input. -/
  | nextRound
  /-- the process dies: scanner panic reaching `os.Exit`, `log.Fatal`
  inside the rebuild's chat-model construction, or a startup
  `log.Fatal`. -/
  | exitProcess (msg : Err)
deriving DecidableEq, Repr

/-- Whether a step outcome killed the process. -/
def StepOutcome.exitsProcess : StepOutcome → Bool
  | .exitProcess _ => true
  | _ => false

/-- Result of one loop round. -/
structure StepRes where
  st : MgrState
  outcome : StepOutcome
  surfaced : List SurfacedMsg
deriving DecidableEq, Repr

/-- The explicit refresh commands at main.go lines 273 and 308. -/
def isRefreshCommand (message : String) : Bool :=
  message == "更新工具" || message == "刷新工具" || message == "重新连接"

/-- One round of `startInteractionLoop` (main.go lines 218-377) after the
user message has been resolved: the `exit` check, the
`needUpdateTools` refresh (tool fetch; then the agent rebuild, whose
`Model:` argument `model.NewChatModel(...)` is evaluated before
`react.NewAgent` runs and `log.Fatal`s the process on constructor
failure, main.go line 292 and chat.go lines 26-28; early `continue` for
refresh commands), then the generate phase.  The dialog list and the held
tool list are bookkeeping that this state embedding omits; stdin reading
is modelled by `loopRound`. -/
def loopStep (env : LoopEnv) (st : MgrState) : StepRes :=
  if env.message == "exit" then
    { st := st, outcome := .exitLoop, surfaced := [] }
  else
    let needUpdateTools :=
      env.intervalElapsed || isRefreshCommand env.message ||
        needsReconnect st
    if needUpdateTools then
      match getMCPTools env.cenv env.enumResult (.ok ()) false st with
      | (st1, .error e) =>
        { st := st1, outcome := .nextRound, surfaced := [.toolsFetchFailure e] }
      | (st1, .ok tools) =>
        match env.chatModelResult with
        | .error e =>
          { st := st1, outcome := .exitProcess e, surfaced := [] }
        | .ok _ =>
        match env.agentResult with
        | .error e =>
          { st := st1, outcome := .nextRound
            surfaced := [.agentInitFailure e] }
        | .ok _ =>
          if isRefreshCommand env.message then
            { st := st1, outcome := .nextRound
              surfaced := [.toolsRefreshed tools.length] }
          else
            let g := genPhase env.gen st1
            { st := g.st, outcome := .nextRound, surfaced := [g.surfaced] }
    else
      let g := genPhase env.gen st
      { st := g.st, outcome := .nextRound, surfaced := [g.surfaced] }

/-- One full round of the interaction loop including stdin reading
(main.go lines 234-257): `scanOutcome` is the scanner's verdict on the
path that actually reads stdin — `.error` embeds `scanner.Err() != nil`,
whose `panic(err)` (main.go lines 249-251) unwinds to `main`'s deferred
`recover` and `os.Exit(1)` (main.go lines 48-57).  The retry path
(main.go lines 238-241) does not read stdin, so its callers pass
`.ok ()`.  On a successful read the round proceeds as `loopStep` with the
resolved message in `env`. -/
def loopRound (scanOutcome : Except Err Unit) (env : LoopEnv)
    (st : MgrState) : StepRes :=
  match scanOutcome with
  | .error e => { st := st, outcome := .exitProcess e, surfaced := [] }
  | .ok _ => loopStep env st

/-- How `main` (main.go lines 34-110) ends: fatally via `log.Fatal*`, or
by entering the interaction loop. -/
inductive StartupOutcome
  /-- one of the `log.Fatal*` calls at main.go lines 44, 80, 82, 105,
  or the `log.Fatal` inside `model.NewChatModel` invoked at main.go
  line 87 (chat.go lines 26-28). -/
  | fatal (msg : Err)
  /-- `startInteractionLoop` is entered (main.go line 109). -/
  | entersLoop
deriving DecidableEq, Repr

/-- Whether a startup outcome killed the process. -/
def StartupOutcome.isFatal : StartupOutcome → Bool
  | .fatal _ => true
  | .entersLoop => false

/-- `main` up to entering the interaction loop (main.go lines 34-110):
load `.env` (`log.Fatal` on failure, line 44), create the manager, fetch
the initial tools verbosely (fatal on failure, with a special message
when the error text mentions `401`/`Unauthorized`, lines 78-84), build
the chat model (main.go line 87 — `model.NewChatModel` calls `log.Fatal`
with the raw constructor error on failure, chat.go lines 26-28), then
build the agent (fatal on failure, line 105).  Returns the manager state
reached (`none` when the process died before the manager existed) and
the outcome. -/
def startupRun (serverURL : String) (envLoad : Except Err Unit)
    (cenv : ConnectEnv) (enumResult : Except Err ToolSet)
    (infoResult : Except Err Unit) (chatModelResult : Except Err Unit)
    (agentResult : Except Err Unit) :
    Option MgrState × StartupOutcome :=
  match envLoad with
  | .error e => (none, .fatal e)
  | .ok _ =>
    let st0 := newClientManager serverURL
    match getMCPTools cenv enumResult infoResult true st0 with
    | (st1, .error e) =>
      if strContains e "401" || strContains e "Unauthorized" then
        (some st1, .fatal ("API认证失败: " ++ e ++
          "\n请检查.env文件中的API_KEY是否正确"))
      else
        (some st1, .fatal ("获取MCP工具失败: " ++ e))
    | (st1, .ok _) =>
      match chatModelResult with
      | .error e => (some st1, .fatal e)
      | .ok _ =>
        match agentResult with
        | .error e => (some st1, .fatal ("初始化Agent失败: " ++ e))
        | .ok _ => (some st1, .entersLoop)

/-- Whether an `Except` value is a success. -/
def isOkE {ε α : Type} : Except ε α → Bool
  | .ok _ => true
  | .error _ => false

/-! ### Concrete environments for evaluated runs -/

/-- Environment where construction, start and initialize all succeed. -/
def envAllOk : ConnectEnv :=
  { constructResults := fun k => .ok k
    startResults := fun _ => .ok
    initResult := .ok () }

/-- Environment where every start attempt fails and everything else
succeeds. -/
def envAllFail : ConnectEnv :=
  { constructResults := fun k => .ok k
    startResults := fun _ => .fail "连接被拒绝"
    initResult := .ok () }

/-- Environment where the first start attempt fails and the handle
reconstruction after it (construction call 1) fails, while every later
construction and start would succeed. -/
def envConstructAbort : ConnectEnv :=
  { constructResults := fun k => if k == 1 then .error "端点配置损坏" else .ok k
    startResults := fun k => if k == 0 then .fail "连接被拒绝" else .ok
    initResult := .ok () }

/-- Environment where start succeeds immediately but initialize fails. -/
def envInitFail : ConnectEnv :=
  { constructResults := fun k => .ok k
    startResults := fun _ => .ok
    initResult := .error "协议版本不兼容" }

/-- The fully disconnected state left by `connect` when every start
attempt is refused. -/
def stFailClosed : MgrState :=
  { serverURL := "http://127.0.0.1:12345/sse"
    client := none
    isConnected := false
    lastError := some "连接被拒绝"
    reconnectPending := 0 }

/-- The fully disconnected state left by `connect` when the handle
reconstruction after the first failed attempt fails. -/
def stAbortClosed : MgrState :=
  { serverURL := "http://127.0.0.1:12345/sse"
    client := none
    isConnected := false
    lastError := some "端点配置损坏"
    reconnectPending := 0 }

/-- The state reached by a successful `connect` run after one
`MarkConnectionFailed` call on a fresh manager. -/
def stReconnected : MgrState :=
  { serverURL := "http://127.0.0.1:12345/sse"
    client := some ⟨0, true, true⟩
    isConnected := true
    lastError := none
    reconnectPending := 1 }

/-- A healthy connected manager state. -/
def stConnected : MgrState :=
  { serverURL := "http://127.0.0.1:12345/sse"
    client := some ⟨0, true, true⟩
    isConnected := true
    lastError := none
    reconnectPending := 0 }

/-- A loop round whose generation goroutine hangs forever. -/
def loopEnvHang : LoopEnv :=
  { message := "列出所有容器"
    intervalElapsed := false
    cenv := envAllOk
    enumResult := .ok ["docker_ps"]
    chatModelResult := .ok ()
    agentResult := .ok ()
    gen := .hangs }

/-! ### Helper lemmas -/

/-- A non-`ok` start outcome yields `some` of its error text. -/
lemma startErrOf_ne_ok {o : StartOutcome} (h : o ≠ .ok) :
    startErrOf o = some (startErrVal o) := by
  cases o with
  | ok => exact absurd rfl h
  | fail e => rfl
  | timedOut => rfl

/-- A handle the retry loop reports as started has its `started` flag
set. -/
lemma connectLoop_started_flag (env : ConnectEnv) :
    ∀ (n : Nat) (e0 : Err) (h : Handle) (cc ai : Nat) (log : ConnLog)
      (h' : Handle) (cc' : Nat) (log' : ConnLog),
      connectLoop env n e0 h cc ai log = (.started h' cc', log') →
      h'.started = true := by
  intro n
  induction n with
  | zero =>
    intro e0 h cc ai log h' cc' log' heq
    simp [connectLoop] at heq
  | succ n ih =>
    intro e0 h cc ai log h' cc' log' heq
    rw [connectLoop] at heq
    rcases hs : startErrOf (env.startResults ai) with _ | e <;> rw [hs] at heq
    · simp only [Prod.mk.injEq, LoopRes.started.injEq] at heq
      obtain ⟨⟨h1, _⟩, _⟩ := heq
      rw [← h1]
    · rcases hc : env.constructResults cc with ce | hid <;> rw [hc] at heq
      · simp at heq
      · exact ih _ _ _ _ _ _ _ _ heq

/-- A successful `connect` run leaves the manager connected to a started
and initialized handle with `lastError` cleared and the reconnect channel
untouched. -/
lemma connect_ok_state (env : ConnectEnv) (st st' : MgrState) (log : ConnLog)
    (h : connect env st = (st', none, log)) :
    st'.isConnected = true ∧
      (∃ hd, st'.client = some hd ∧ hd.started = true ∧
        hd.initialized = true) ∧
      st'.lastError = none ∧ st'.reconnectPending = st.reconnectPending := by
  unfold connect at h
  split at h
  · simp at h
  · split at h
    · simp at h
    · simp at h
    · split at h
      · simp at h
      · rename_i hid hceq xpair hd cc logx hloop xinit a heqinit
        simp only [Prod.mk.injEq] at h
        obtain ⟨hst, -, -⟩ := h
        refine ⟨by rw [← hst], ⟨{ hd with initialized := true }, by rw [← hst],
          ?_, rfl⟩, by rw [← hst], by rw [← hst]⟩
        exact connectLoop_started_flag env 5 "" ⟨hid, false, false⟩ 1 0
          ⟨1, 0, 0, 0⟩ hd cc logx hloop

/-- Every failing `connect` run leaves the manager fully disconnected,
with `lastError` holding the failure's cause. -/
lemma connect_error_state (env : ConnectEnv) (st st' : MgrState)
    (ce : ConnectErr) (log : ConnLog)
    (h : connect env st = (st', some ce, log)) :
    st'.isConnected = false ∧ st'.client = none ∧
      st'.lastError = some ce.cause := by
  unfold connect at h
  split at h
  · simp only [Prod.mk.injEq, Option.some.injEq] at h
    obtain ⟨hst, hce, -⟩ := h
    subst hce
    subst hst
    exact ⟨rfl, rfl, by simp [ConnectErr.cause]⟩
  · split at h
    · simp only [Prod.mk.injEq, Option.some.injEq] at h
      obtain ⟨hst, hce, -⟩ := h
      subst hce
      subst hst
      exact ⟨rfl, rfl, by simp [ConnectErr.cause]⟩
    · simp only [Prod.mk.injEq, Option.some.injEq] at h
      obtain ⟨hst, hce, -⟩ := h
      subst hce
      subst hst
      exact ⟨rfl, rfl, by simp [ConnectErr.cause]⟩
    · split at h
      · simp only [Prod.mk.injEq, Option.some.injEq] at h
        obtain ⟨hst, hce, -⟩ := h
        subst hce
        subst hst
        exact ⟨rfl, rfl, by simp [ConnectErr.cause]⟩
      · simp at h

/-- The state after `getClient` is either the input state or the state
produced by `connect`. -/
lemma getClient_state_cases (env : ConnectEnv) (st : MgrState) :
    (getClient env st).1 = st ∨ (getClient env st).1 = (connect env st).1 := by
  unfold getClient
  split
  · rcases h : connect env st with ⟨st', r, log⟩
    rcases r with _ | ce <;> simp [h]
  · left
    rfl

/-- `connect` establishes the manager invariant unconditionally. -/
lemma connect_establishes_inv (env : ConnectEnv) (st : MgrState) :
    MgrInv (connect env st).1 := by
  rcases h : connect env st with ⟨st', r, log⟩
  rcases r with _ | ce
  · intro _
    obtain ⟨-, ⟨hd, hcl, hs, hi⟩, -, -⟩ := connect_ok_state env st st' log h
    exact ⟨hd, hcl, hs, hi⟩
  · intro hconn
    obtain ⟨hfalse, -, -⟩ := connect_error_state env st st' ce log h
    simp [hfalse] at hconn

/-- With at most one signal queued (the channel's capacity), a
non-blocking send leaves exactly one signal queued. -/
lemma sendNonBlocking_eq_one {c : Nat} (h : c ≤ 1) : sendNonBlocking c = 1 := by
  unfold sendNonBlocking
  split <;> omega

/-- `MarkConnectionFailed` leaves exactly one signal queued when starting
within the channel's capacity. -/
lemma markConnectionFailed_pending {st : MgrState} (e : Err)
    (h : st.reconnectPending ≤ 1) :
    (markConnectionFailed st e).reconnectPending = 1 :=
  sendNonBlocking_eq_one h

/-- A fold of `MarkConnectionFailed` calls never exceeds the channel's
capacity. -/
lemma foldl_markConnectionFailed_pending_le (es : List Err) :
    ∀ st : MgrState, st.reconnectPending ≤ 1 →
      (es.foldl markConnectionFailed st).reconnectPending ≤ 1 := by
  induction es with
  | nil => intro st h; exact h
  | cons e es ih =>
    intro st h
    exact ih _ (le_of_eq (markConnectionFailed_pending e h))

/-- The attempt counter of the retry loop grows by at most the remaining
iteration budget. -/
lemma connectLoop_attempts_le (env : ConnectEnv) :
    ∀ (n : Nat) (e0 : Err) (h : Handle) (cc ai : Nat) (log : ConnLog),
      (connectLoop env n e0 h cc ai log).2.startAttempts ≤
        log.startAttempts + n := by
  intro n
  induction n with
  | zero =>
    intro e0 h cc ai log
    simp [connectLoop]
  | succ n ih =>
    intro e0 h cc ai log
    rw [connectLoop]
    split
    · show log.startAttempts + 1 ≤ log.startAttempts + (n + 1)
      omega
    · split
      · show log.startAttempts + 1 ≤ log.startAttempts + (n + 1)
        omega
      · refine le_trans (ih _ _ _ _ _) ?_
        show log.startAttempts + 1 + n ≤ log.startAttempts + (n + 1)
        omega

/-- `connect` makes at most five start attempts, for every environment:
the retry loop's budget bounds the protocol. -/
lemma connect_attempts_le (env : ConnectEnv) (st : MgrState) :
    (connect env st).2.2.startAttempts ≤ 5 := by
  unfold connect
  split
  · show (0 : Nat) ≤ 5
    omega
  · rename_i hid hceq
    have hb := connectLoop_attempts_le env 5 "" ⟨hid, false, false⟩ 1 0
      ⟨1, 0, 0, 0⟩
    split
    · rename_i e cc logx heq
      rw [heq] at hb
      simpa using hb
    · rename_i e hd cc logx heq
      rw [heq] at hb
      simpa using hb
    · rename_i hd cc logx heq
      rw [heq] at hb
      split
      · simpa using hb
      · simpa using hb

/-- When every start attempt fails and every construction succeeds, the
retry loop runs through its whole budget: one start attempt, one handle
reconstruction and one backoff sleep per iteration, ending exhausted with
the last attempt's error. -/
lemma connectLoop_all_fail (env : ConnectEnv)
    (hc : ∀ k, ∃ id, env.constructResults k = .ok id)
    (hs : ∀ k, env.startResults k ≠ .ok) :
    ∀ (n : Nat) (e0 : Err) (h : Handle) (cc ai : Nat) (log : ConnLog),
      ∃ h', connectLoop env (n + 1) e0 h cc ai log =
        (.exhausted (startErrVal (env.startResults (ai + n))) h'
            (cc + (n + 1)),
          ⟨log.constructCalls + (n + 1), log.startAttempts + (n + 1),
            log.sleeps + (n + 1), log.initCalls⟩) := by
  intro n
  induction n with
  | zero =>
    intro e0 h cc ai log
    obtain ⟨id, hid⟩ := hc cc
    refine ⟨⟨id, false, false⟩, ?_⟩
    simp [connectLoop, startErrOf_ne_ok (hs ai), hid]
  | succ n ih =>
    intro e0 h cc ai log
    obtain ⟨id, hid⟩ := hc cc
    obtain ⟨h', hrec⟩ := ih (startErrVal (env.startResults ai))
      ⟨id, false, false⟩ (cc + 1) (ai + 1)
      ⟨log.constructCalls + 1, log.startAttempts + 1, log.sleeps + 1,
        log.initCalls⟩
    refine ⟨h', ?_⟩
    rw [connectLoop]
    simp only [startErrOf_ne_ok (hs ai), hid]
    rw [hrec]
    have h1 : ai + 1 + n = ai + (n + 1) := by omega
    have h2 : cc + 1 + (n + 1) = cc + (n + 1 + 1) := by omega
    have h3 : log.constructCalls + 1 + (n + 1) =
        log.constructCalls + (n + 1 + 1) := by omega
    have h4 : log.startAttempts + 1 + (n + 1) =
        log.startAttempts + (n + 1 + 1) := by omega
    have h5 : log.sleeps + 1 + (n + 1) = log.sleeps + (n + 1 + 1) := by omega
    rw [h1, h2, h3, h4, h5]

/-- When the first `k` start attempts fail, attempt `k` succeeds and every
construction succeeds, the retry loop (with more than `k` iterations of
budget left) reports started after `k + 1` attempts, `k` reconstructions
and `k` backoff sleeps. -/
lemma connectLoop_first_ok (env : ConnectEnv)
    (hc : ∀ j, ∃ id, env.constructResults j = .ok id) :
    ∀ (k rem : Nat) (e0 : Err) (h : Handle) (cc ai : Nat) (log : ConnLog),
      k < rem →
      (∀ j, j < k → env.startResults (ai + j) ≠ .ok) →
      env.startResults (ai + k) = .ok →
      ∃ h', connectLoop env rem e0 h cc ai log =
        (.started h' (cc + k),
          ⟨log.constructCalls + k, log.startAttempts + (k + 1),
            log.sleeps + k, log.initCalls⟩) ∧ h'.started = true := by
  intro k
  induction k with
  | zero =>
    intro rem e0 h cc ai log hlt hj hok
    rcases rem with _ | r
    · omega
    · have hai : env.startResults ai = .ok := by simpa using hok
      refine ⟨{ h with started := true }, ?_, rfl⟩
      simp [connectLoop, hai, startErrOf]
  | succ k ih =>
    intro rem e0 h cc ai log hlt hj hok
    rcases rem with _ | r
    · omega
    · obtain ⟨id, hid⟩ := hc cc
      have hne : env.startResults ai ≠ .ok := by
        have := hj 0 (by omega)
        simpa using this
      obtain ⟨h', hrec, hstf⟩ := ih r (startErrVal (env.startResults ai))
        ⟨id, false, false⟩ (cc + 1) (ai + 1)
        ⟨log.constructCalls + 1, log.startAttempts + 1, log.sleeps + 1,
          log.initCalls⟩
        (by omega)
        (fun j hjk => by
          have := hj (j + 1) (by omega)
          have harith : ai + (j + 1) = ai + 1 + j := by omega
          rwa [harith] at this)
        (by
          have harith : ai + (k + 1) = ai + 1 + k := by omega
          rwa [harith] at hok)
      refine ⟨h', ?_, hstf⟩
      rw [connectLoop]
      simp only [startErrOf_ne_ok hne, hid]
      rw [hrec]
      have h1 : cc + 1 + k = cc + (k + 1) := by omega
      have h2 : log.constructCalls + 1 + k = log.constructCalls + (k + 1) :=
        by omega
      have h3 : log.startAttempts + 1 + (k + 1) =
          log.startAttempts + (k + 1 + 1) := by omega
      have h4 : log.sleeps + 1 + k = log.sleeps + (k + 1) := by omega
      rw [h1, h2, h3, h4]

/-- When the retry loop ends in a mid-loop construction failure, the
failing construction is the last external call: constructions exceed start
attempts by exactly one and initialize never ran. -/
lemma connectLoop_constructFail_log (env : ConnectEnv) :
    ∀ (n : Nat) (e0 : Err) (h : Handle) (cc ai : Nat) (log : ConnLog)
      (ce : Err) (cc' : Nat) (log' : ConnLog),
      connectLoop env n e0 h cc ai log = (.constructFail ce cc', log') →
      log.constructCalls = log.startAttempts + 1 →
      log.initCalls = 0 →
      log'.constructCalls = log'.startAttempts + 1 ∧ log'.initCalls = 0 := by
  intro n
  induction n with
  | zero =>
    intro e0 h cc ai log ce cc' log' heq hinv hinit
    simp [connectLoop] at heq
  | succ n ih =>
    intro e0 h cc ai log ce cc' log' heq hinv hinit
    rw [connectLoop] at heq
    split at heq
    · simp at heq
    · split at heq
      · simp only [Prod.mk.injEq, LoopRes.constructFail.injEq] at heq
        obtain ⟨⟨-, -⟩, hlog⟩ := heq
        rw [← hlog]
        constructor
        · show log.constructCalls + 1 = log.startAttempts + 1 + 1
          omega
        · exact hinit
      · exact ih _ _ _ _ _ _ _ _ heq
          (by show log.constructCalls + 1 = log.startAttempts + 1 + 1; omega)
          (by exact hinit)

/-! ### Claim theorems -/

/-- C1: each ClientManager operation — `GetClient`, `connect`,
`MarkConnectionFailed` and the read-only `NeedsReconnect` — preserves the
invariant that `isConnected = true` implies the client handle is present,
started and initialized.  Each operation is a single atomic state
transformer (the Go methods hold `m.mutex` for their whole body), so the
invariant holding of every operation's result state is exactly the
guarantee that no observer sees `isConnected = true` with a nil client. -/
theorem clientManager_preserves_invariant (env : ConnectEnv) (st : MgrState)
    (e : Err) (hInv : MgrInv st) :
    MgrInv (connect env st).1 ∧ MgrInv (getClient env st).1 ∧
      MgrInv (markConnectionFailed st e) ∧ MgrInv st := by
  refine ⟨connect_establishes_inv env st, ?_, ?_, hInv⟩
  · rcases getClient_state_cases env st with h | h
    · rw [h]
      exact hInv
    · rw [h]
      exact connect_establishes_inv env st
  · intro hconn
    simp [markConnectionFailed] at hconn

/-- Witness for C1 at the freshly constructed manager and the
all-successful environment. -/
theorem clientManager_preserves_invariant_witness :
    MgrInv (newClientManager "http://127.0.0.1:12345/sse") ∧
      (MgrInv (connect envAllOk (newClientManager
          "http://127.0.0.1:12345/sse")).1 ∧
        MgrInv (getClient envAllOk (newClientManager
          "http://127.0.0.1:12345/sse")).1 ∧
        MgrInv (markConnectionFailed (newClientManager
          "http://127.0.0.1:12345/sse") "连接超时") ∧
        MgrInv (newClientManager "http://127.0.0.1:12345/sse")) :=
  ⟨by decide, clientManager_preserves_invariant envAllOk
    (newClientManager "http://127.0.0.1:12345/sse") "连接超时" (by decide)⟩

/-- C2: after any nonempty sequence of `MarkConnectionFailed` calls
starting from a state respecting the reconnect channel's capacity,
`isConnected` is false, the client handle is dropped, `lastError` is the
most recently reported error, and exactly one reconnect signal is pending
(the non-blocking send into a full capacity-1 slot is dropped, so N calls
leave 1 signal, not N). -/
theorem markConnectionFailed_sequence (st : MgrState) (es : List Err)
    (e : Err) (hcap : st.reconnectPending ≤ 1) :
    ((es ++ [e]).foldl markConnectionFailed st).isConnected = false ∧
      ((es ++ [e]).foldl markConnectionFailed st).client = none ∧
      ((es ++ [e]).foldl markConnectionFailed st).lastError = some e ∧
      ((es ++ [e]).foldl markConnectionFailed st).reconnectPending = 1 := by
  rw [List.foldl_append]
  simp only [List.foldl_cons, List.foldl_nil]
  exact ⟨rfl, rfl, rfl,
    markConnectionFailed_pending e
      (foldl_markConnectionFailed_pending_le es st hcap)⟩

/-- Witness for C2: two failures reported against a healthy connected
manager leave one pending signal and the second error recorded. -/
theorem markConnectionFailed_sequence_witness :
    stConnected.reconnectPending ≤ 1 ∧
      (((["Invalid session ID"] ++ ["EOF"]).foldl markConnectionFailed
          stConnected).isConnected = false ∧
        ((["Invalid session ID"] ++ ["EOF"]).foldl markConnectionFailed
          stConnected).client = none ∧
        ((["Invalid session ID"] ++ ["EOF"]).foldl markConnectionFailed
          stConnected).lastError = some "EOF" ∧
        ((["Invalid session ID"] ++ ["EOF"]).foldl markConnectionFailed
          stConnected).reconnectPending = 1) :=
  ⟨by decide,
    markConnectionFailed_sequence stConnected ["Invalid session ID"] "EOF"
      (by decide)⟩

/-- C3: when every start attempt fails (or times out) and handle
construction always succeeds, `connect` terminates after exactly five
start attempts — each failed attempt followed by a 2-second backoff sleep
(five sleeps in total, in particular one between any two consecutive
attempts) — and returns the connect error whose cause is the last
attempt's start error, leaving the manager disconnected with that cause
recorded; moreover for every environment whatsoever the protocol makes at
most five start attempts, so it never hangs in the retry loop. -/
theorem connect_exhausts_attempts (env : ConnectEnv) (st : MgrState)
    (hc : ∀ k, ∃ id, env.constructResults k = .ok id)
    (hs : ∀ k, env.startResults k ≠ .ok) :
    connect env st =
      ({ st with
          client := none
          isConnected := false
          lastError := some (startErrVal (env.startResults 4)) },
        some (.startExhausted (startErrVal (env.startResults 4))),
        ⟨6, 5, 5, 0⟩) ∧
      (∀ env' st', (connect env' st').2.2.startAttempts ≤ 5) := by
  constructor
  · obtain ⟨id0, hid0⟩ := hc 0
    obtain ⟨h', hloop⟩ := connectLoop_all_fail env hc hs 4 ""
      ⟨id0, false, false⟩ 1 0 ⟨1, 0, 0, 0⟩
    have hloop5 : connectLoop env 5 "" ⟨id0, false, false⟩ 1 0 ⟨1, 0, 0, 0⟩ =
        (.exhausted (startErrVal (env.startResults 4)) h' 6,
          ⟨6, 5, 5, 0⟩) := hloop
    unfold connect
    simp only [hid0, hloop5]
  · intro env' st'
    exact connect_attempts_le env' st'

/-- Witness for C3 in the environment where every start attempt fails. -/
theorem connect_exhausts_attempts_witness :
    (∀ k, ∃ id, envAllFail.constructResults k = .ok id) ∧
      (∀ k, envAllFail.startResults k ≠ .ok) ∧
      (connect envAllFail (newClientManager "http://127.0.0.1:12345/sse") =
        ({ newClientManager "http://127.0.0.1:12345/sse" with
            client := none
            isConnected := false
            lastError := some (startErrVal
              (envAllFail.startResults 4)) },
          some (.startExhausted (startErrVal (envAllFail.startResults 4))),
          ⟨6, 5, 5, 0⟩) ∧
        (∀ env' st', (connect env' st').2.2.startAttempts ≤ 5)) :=
  ⟨fun k => ⟨k, rfl⟩, fun k => by simp [envAllFail],
    connect_exhausts_attempts envAllFail
      (newClientManager "http://127.0.0.1:12345/sse")
      (fun k => ⟨k, rfl⟩) (fun k => by simp [envAllFail])⟩

/-- C10: whenever `connect` returns an error — construction failure,
start-attempt exhaustion or initialize failure — the manager ends fully
disconnected: `isConnected` false, client handle nil and `lastError` set
to the cause; consequently a failing `GetClient` also never leaves a
partially connected state behind. -/
theorem connect_failure_fully_disconnects (env : ConnectEnv)
    (st st' : MgrState) (ce : ConnectErr) (log : ConnLog)
    (h : connect env st = (st', some ce, log)) :
    st'.isConnected = false ∧ st'.client = none ∧
      st'.lastError = some ce.cause ∧
      (∀ env2 st2 st2' ce2 b, getClient env2 st2 = (st2', .error ce2, b) →
        st2'.isConnected = false ∧ st2'.client = none ∧
          st2'.lastError = some ce2.cause) := by
  obtain ⟨h1, h2, h3⟩ := connect_error_state env st st' ce log h
  refine ⟨h1, h2, h3, ?_⟩
  intro env2 st2 st2' ce2 b hg
  unfold getClient at hg
  split at hg
  · split at hg
    · rename_i st3 ce3 logx heq
      simp only [Prod.mk.injEq, Except.error.injEq] at hg
      obtain ⟨hst3, hce3, -⟩ := hg
      subst hst3
      subst hce3
      exact connect_error_state env2 st2 st3 ce3 logx heq
    · simp at hg
  · simp at hg

/-- Witness for C10 at the all-start-failures environment. -/
theorem connect_failure_fully_disconnects_witness :
    connect envAllFail (newClientManager "http://127.0.0.1:12345/sse") =
      (stFailClosed, some (.startExhausted "连接被拒绝"), ⟨6, 5, 5, 0⟩) ∧
      stFailClosed.isConnected = false ∧ stFailClosed.client = none ∧
      stFailClosed.lastError =
        some (ConnectErr.startExhausted "连接被拒绝").cause ∧
      (∀ env2 st2 st2' ce2 b, getClient env2 st2 = (st2', .error ce2, b) →
        st2'.isConnected = false ∧ st2'.client = none ∧
          st2'.lastError = some ce2.cause) :=
  ⟨rfl, connect_failure_fully_disconnects envAllFail
    (newClientManager "http://127.0.0.1:12345/sse") _ _ _ rfl⟩

/-- C4 counterexample: in `envConstructAbort` the first start attempt
fails, the handle reconstruction after it fails, and every later
construction and start attempt would succeed — yet `connect` returns the
construction error after a single start attempt instead of retrying
construction on the next loop iteration: the whole protocol aborts
(client.go lines 104-109 `return` from `connect`). -/
theorem connect_construct_retry_cex :
    connect envConstructAbort (newClientManager
        "http://127.0.0.1:12345/sse") =
      (stAbortClosed, some (.constructFailed "端点配置损坏"),
        ⟨2, 1, 0, 0⟩) ∧
      envConstructAbort.startResults 1 = .ok ∧
      (∃ id, envConstructAbort.constructResults 2 = .ok id) ∧
      (connect envConstructAbort (newClientManager
        "http://127.0.0.1:12345/sse")).2.2.startAttempts ≠ 5 :=
  ⟨rfl, rfl, ⟨2, rfl⟩, by decide⟩

/-- C4 (amended): a failure to construct a new Transport Handle aborts
the whole connect protocol immediately rather than being retried: the
manager is left fully disconnected with the construction error recorded,
initialize never runs, and the failing construction is the final external
call (constructions made = start attempts made + 1). -/
theorem connect_construct_failure_aborts (env : ConnectEnv)
    (st st' : MgrState) (e : Err) (log : ConnLog)
    (h : connect env st = (st', some (.constructFailed e), log)) :
    st'.isConnected = false ∧ st'.client = none ∧ st'.lastError = some e ∧
      log.initCalls = 0 ∧ log.constructCalls = log.startAttempts + 1 := by
  have hstate := connect_error_state env st st' (.constructFailed e) log h
  have hlog : log.initCalls = 0 ∧
      log.constructCalls = log.startAttempts + 1 := by
    unfold connect at h
    split at h
    · simp only [Prod.mk.injEq, Option.some.injEq] at h
      obtain ⟨-, -, hlg⟩ := h
      rw [← hlg]
      exact ⟨rfl, rfl⟩
    · split at h
      · rename_i e3 cc3 logx heq
        simp only [Prod.mk.injEq, Option.some.injEq,
          ConnectErr.constructFailed.injEq] at h
        obtain ⟨-, -, hlg⟩ := h
        subst hlg
        have hcf := connectLoop_constructFail_log env 5 "" _ 1 0 ⟨1, 0, 0, 0⟩
          e3 cc3 logx heq rfl rfl
        exact ⟨hcf.2, hcf.1⟩
      · simp at h
      · split at h
        · simp at h
        · simp at h
  exact ⟨hstate.1, hstate.2.1,
    by simpa [ConnectErr.cause] using hstate.2.2, hlog.1, hlog.2⟩

/-- Witness for the amended C4 at the aborting environment. -/
theorem connect_construct_failure_aborts_witness :
    connect envConstructAbort (newClientManager
        "http://127.0.0.1:12345/sse") =
      (stAbortClosed, some (.constructFailed "端点配置损坏"),
        ⟨2, 1, 0, 0⟩) ∧
      (stAbortClosed.isConnected = false ∧ stAbortClosed.client = none ∧
        stAbortClosed.lastError = some "端点配置损坏" ∧
        (⟨2, 1, 0, 0⟩ : ConnLog).initCalls = 0 ∧
        (⟨2, 1, 0, 0⟩ : ConnLog).constructCalls =
          (⟨2, 1, 0, 0⟩ : ConnLog).startAttempts + 1) :=
  ⟨rfl, connect_construct_failure_aborts envConstructAbort
    (newClientManager "http://127.0.0.1:12345/sse") stAbortClosed
    "端点配置损坏" ⟨2, 1, 0, 0⟩ rfl⟩

/-- C5: when the start phase succeeds (the first successful start is
attempt `k`, within the budget) but protocol-initialize fails, `connect`
closes and discards the handle and returns the initialize error
immediately, leaving `isConnected = false` and `lastError` set to the
initialize failure, with initialize having been called exactly once (no
retry of initialize). -/
theorem connect_init_failure_aborts (env : ConnectEnv) (st : MgrState)
    (e : Err) (k : Nat)
    (hc : ∀ j, ∃ id, env.constructResults j = .ok id)
    (hk : k < 5)
    (hfirst : ∀ j, j < k → env.startResults j ≠ .ok)
    (hok : env.startResults k = .ok)
    (hinit : env.initResult = .error e) :
    ∃ log, connect env st =
      ({ st with
          client := none
          isConnected := false
          lastError := some e },
        some (.initFailed e), log) ∧ log.initCalls = 1 := by
  obtain ⟨id0, hid0⟩ := hc 0
  obtain ⟨h', hloop, hstf⟩ := connectLoop_first_ok env hc k 5 ""
    ⟨id0, false, false⟩ 1 0 ⟨1, 0, 0, 0⟩ hk
    (fun j hj => by simpa using hfirst j hj) (by simpa using hok)
  refine ⟨⟨1 + k, k + 1, k, 1⟩, ?_, rfl⟩
  unfold connect
  simp only [hid0, hloop, hinit, Nat.zero_add]

/-- Witness for C5: start succeeds on the first attempt, initialize
fails. -/
theorem connect_init_failure_aborts_witness :
    (∀ j, ∃ id, envInitFail.constructResults j = .ok id) ∧ (0 : Nat) < 5 ∧
      envInitFail.startResults 0 = .ok ∧
      envInitFail.initResult = .error "协议版本不兼容" ∧
      (∃ log, connect envInitFail stConnected =
        ({ stConnected with
            client := none
            isConnected := false
            lastError := some "协议版本不兼容" },
          some (.initFailed "协议版本不兼容"), log) ∧ log.initCalls = 1) :=
  ⟨fun j => ⟨j, rfl⟩, by decide, rfl, rfl,
    connect_init_failure_aborts envInitFail stConnected "协议版本不兼容" 0
      (fun j => ⟨j, rfl⟩) (by decide)
      (fun j hj => absurd hj (Nat.not_lt_zero j)) rfl rfl⟩

/-- C6: after `MarkConnectionFailed` followed by a successful run of the
connect protocol, `NeedsReconnect` returns false and a subsequent
`GetClient` returns the current handle without re-running `connect`
(the returned `Bool` records that `connect` did not run) and with the
manager state unchanged. -/
theorem reconnect_roundtrip (env env2 : ConnectEnv) (st st2 : MgrState)
    (e : Err) (log : ConnLog)
    (hconn : connect env (markConnectionFailed st e) = (st2, none, log)) :
    needsReconnect st2 = false ∧
      getClient env2 st2 = (st2, .ok st2.client, false) := by
  obtain ⟨hc1, ⟨hd, hcl, -, -⟩, -, -⟩ :=
    connect_ok_state env (markConnectionFailed st e) st2 log hconn
  refine ⟨by simp [needsReconnect, hc1, hcl], ?_⟩
  simp [getClient, hc1, hcl]

/-- Witness for C6: failure reported on a fresh manager, then a fully
successful reconnect. -/
theorem reconnect_roundtrip_witness :
    connect envAllOk (markConnectionFailed (newClientManager
        "http://127.0.0.1:12345/sse") "EOF") =
      (stReconnected, none, ⟨1, 1, 0, 1⟩) ∧
      (needsReconnect stReconnected = false ∧
        getClient envAllOk stReconnected =
          (stReconnected, .ok stReconnected.client, false)) :=
  ⟨rfl, reconnect_roundtrip envAllOk envAllOk
    (newClientManager "http://127.0.0.1:12345/sse") stReconnected "EOF"
    ⟨1, 1, 0, 1⟩ rfl⟩

/-- C7: when `runner.Generate` completes (within the outer guard) with an
error, the session loop classifies it by case-sensitive substring match
against exactly the keyword set connection / timeout / EOF /
Invalid session ID: on a match it calls `MarkConnectionFailed` and
surfaces the reconnecting message instead of the raw error; on no match it
surfaces an ordinary business failure and leaves the manager untouched.
The final two conjuncts pin down case-sensitivity on concrete texts. -/
theorem generate_error_classification (st : MgrState) (t : Nat) (e : Err)
    (ht : t < 50) :
    (isTransportError e =
      transportKeywords.any (fun kw => strContains e kw)) ∧
    (isTransportError e = true →
      genPhase (.completes t (.error e)) st =
        { st := markConnectionFailed st e
          unblockTime := t
          markCalls := 1
          surfaced := .reconnecting
          appended := false }) ∧
    (isTransportError e = false →
      genPhase (.completes t (.error e)) st =
        { st := st
          unblockTime := t
          markCalls := 0
          surfaced := .businessFailure e
          appended := false }) ∧
    isTransportError "Request timeout" = true ∧
    isTransportError "Request Timeout" = false := by
  refine ⟨?_, ?_, ?_, by decide, by decide⟩
  · simp [isTransportError, transportKeywords, Bool.or_assoc]
  · intro htr
    simp [genPhase, ht, htr]
  · intro htr
    simp [genPhase, ht, htr]

/-- Witness for C7 at a transport-shaped error completing at 3 seconds. -/
theorem generate_error_classification_witness :
    (3 : Nat) < 50 ∧
      ((isTransportError "connection reset by peer" =
          transportKeywords.any (fun kw =>
            strContains "connection reset by peer" kw)) ∧
        (isTransportError "connection reset by peer" = true →
          genPhase (.completes 3 (.error "connection reset by peer"))
              stConnected =
            { st := markConnectionFailed stConnected
                "connection reset by peer"
              unblockTime := 3
              markCalls := 1
              surfaced := .reconnecting
              appended := false }) ∧
        (isTransportError "connection reset by peer" = false →
          genPhase (.completes 3 (.error "connection reset by peer"))
              stConnected =
            { st := stConnected
              unblockTime := 3
              markCalls := 0
              surfaced := .businessFailure "connection reset by peer"
              appended := false }) ∧
        isTransportError "Request timeout" = true ∧
        isTransportError "Request Timeout" = false) :=
  ⟨by decide, generate_error_classification stConnected 3
    "connection reset by peer" (by decide)⟩

/-- C8: when the background generation unit never completes, the `select`
races it against `time.After(50s)` and the timer branch runs: the caller
unblocks at the 50-second outer guard (never later), exactly one
`MarkConnectionFailed` happens on this path, the timeout advisory is
surfaced, and the loop round ends in `nextRound` — back to the idle
prompt — without awaiting the abandoned unit. -/
theorem request_hang_timeout (st : MgrState) (env : LoopEnv)
    (hgen : env.gen = .hangs)
    (hexit : (env.message == "exit") = false)
    (hint : env.intervalElapsed = false)
    (href : isRefreshCommand env.message = false)
    (hneed : needsReconnect st = false) :
    genPhase GenBehavior.hangs st =
      { st := markConnectionFailed st "命令执行超时"
        unblockTime := 50
        markCalls := 1
        surfaced := .requestTimedOut
        appended := false } ∧
    (genPhase GenBehavior.hangs st).unblockTime ≤ 50 ∧
    (genPhase GenBehavior.hangs st).markCalls = 1 ∧
    loopStep env st =
      { st := markConnectionFailed st "命令执行超时"
        outcome := .nextRound
        surfaced := [.requestTimedOut] } := by
  refine ⟨rfl, le_refl 50, rfl, ?_⟩
  simp [loopStep, hexit, hint, href, hneed, hgen, genPhase]

/-- Witness for C8 at a hanging generation against a healthy manager. -/
theorem request_hang_timeout_witness :
    loopEnvHang.gen = GenBehavior.hangs ∧
      (loopEnvHang.message == "exit") = false ∧
      loopEnvHang.intervalElapsed = false ∧
      isRefreshCommand loopEnvHang.message = false ∧
      needsReconnect stConnected = false ∧
      (genPhase GenBehavior.hangs stConnected =
        { st := markConnectionFailed stConnected "命令执行超时"
          unblockTime := 50
          markCalls := 1
          surfaced := .requestTimedOut
          appended := false } ∧
      (genPhase GenBehavior.hangs stConnected).unblockTime ≤ 50 ∧
      (genPhase GenBehavior.hangs stConnected).markCalls = 1 ∧
      loopStep loopEnvHang stConnected =
        { st := markConnectionFailed stConnected "命令执行超时"
          outcome := .nextRound
          surfaced := [.requestTimedOut] }) :=
  ⟨rfl, rfl, rfl, rfl, by decide,
    request_hang_timeout stConnected loopEnvHang rfl rfl rfl rfl
      (by decide)⟩

/-- C9 counterexample: at startup, with the connection and tool fetch
fully successful (the manager is connected when the process dies) and
chat-model construction succeeding, a failing `react.NewAgent` is fatal
(main.go lines 104-106) — a fatal condition that is neither an exhausted
connect-attempt budget nor prior to the first successful connection,
refuting the claim as stated. -/
theorem startup_fatal_after_connection_cex :
    (startupRun "http://127.0.0.1:12345/sse" (.ok ()) envAllOk
        (.ok ["docker_ps"]) (.ok ()) (.ok ()) (.error "模型配置错误")).2 =
      .fatal "初始化Agent失败: 模型配置错误" ∧
    ((startupRun "http://127.0.0.1:12345/sse" (.ok ()) envAllOk
        (.ok ["docker_ps"]) (.ok ()) (.ok ()) (.error "模型配置错误")).1.map
      MgrState.isConnected) = some true ∧
    (startupRun "http://127.0.0.1:12345/sse" (.ok ()) envAllOk
        (.ok ["docker_ps"]) (.ok ()) (.ok ())
        (.error "模型配置错误")).2.isFatal = true :=
  ⟨rfl, rfl, rfl⟩

/-- C9 (amended): exhausted connect budget before any successful
connection is not the only fatal condition.  At startup the process dies
fatally exactly when `.env` loading fails, the initial tool fetch fails
(covering an exhausted connect budget and auth failure), chat-model
construction fails (the `log.Fatal` inside `model.NewChatModel`,
main.go line 87), or agent initialization fails — the latter two
occurring after a successful connection has already been made.  An
interactive-loop round terminates the process exactly when the stdin
scan fails (the panic reaches `main`'s recover and `os.Exit`) or, on the
tool-rebuild path with a successful tool fetch, chat-model construction
fails (main.go line 292); every other modeled failure — tool refresh,
agent re-initialization, transport errors, business failures, request
timeouts — degrades to an advisory message and the round ends in
`exitLoop` or `nextRound`. -/
theorem process_fatality_policy (serverURL : String)
    (envLoad : Except Err Unit) (cenv : ConnectEnv)
    (enumResult : Except Err ToolSet) (infoResult : Except Err Unit)
    (chatModelResult agentResult : Except Err Unit)
    (scanOutcome : Except Err Unit) (lenv : LoopEnv) (st : MgrState) :
    ((startupRun serverURL envLoad cenv enumResult infoResult
        chatModelResult agentResult).2.isFatal = true ↔
      isOkE envLoad = false ∨
        isOkE (getMCPTools cenv enumResult infoResult true
          (newClientManager serverURL)).2 = false ∨
        isOkE chatModelResult = false ∨ isOkE agentResult = false) ∧
    ((loopRound scanOutcome lenv st).outcome.exitsProcess = true ↔
      isOkE scanOutcome = false ∨
        ((lenv.message == "exit") = false ∧
          (lenv.intervalElapsed || isRefreshCommand lenv.message ||
            needsReconnect st) = true ∧
          isOkE (getMCPTools lenv.cenv lenv.enumResult (.ok ()) false
            st).2 = true ∧
          isOkE lenv.chatModelResult = false)) ∧
    (isOkE scanOutcome = true → isOkE lenv.chatModelResult = true →
      (loopRound scanOutcome lenv st).outcome = .exitLoop ∨
        (loopRound scanOutcome lenv st).outcome = .nextRound) := by
  have hstart : (startupRun serverURL envLoad cenv enumResult infoResult
      chatModelResult agentResult).2.isFatal = true ↔
      isOkE envLoad = false ∨
        isOkE (getMCPTools cenv enumResult infoResult true
          (newClientManager serverURL)).2 = false ∨
        isOkE chatModelResult = false ∨ isOkE agentResult = false := by
    rcases envLoad with e | u
    · simp [startupRun, isOkE, StartupOutcome.isFatal]
    · rcases hg : getMCPTools cenv enumResult infoResult true
        (newClientManager serverURL) with ⟨st1, r⟩
      rcases r with e3 | tools
      · simp only [startupRun, hg, isOkE]
        split <;> simp [StartupOutcome.isFatal]
      · rcases chatModelResult with e4 | u4
        · simp [startupRun, hg, isOkE, StartupOutcome.isFatal]
        · rcases agentResult with e2 | u2
          · simp [startupRun, hg, isOkE, StartupOutcome.isFatal]
          · simp [startupRun, hg, isOkE, StartupOutcome.isFatal]
  have hloop : (loopRound scanOutcome lenv st).outcome.exitsProcess =
      true ↔
      isOkE scanOutcome = false ∨
        ((lenv.message == "exit") = false ∧
          (lenv.intervalElapsed || isRefreshCommand lenv.message ||
            needsReconnect st) = true ∧
          isOkE (getMCPTools lenv.cenv lenv.enumResult (.ok ()) false
            st).2 = true ∧
          isOkE lenv.chatModelResult = false) := by
    rcases scanOutcome with es | us
    · simp [loopRound, isOkE, StepOutcome.exitsProcess]
    · simp only [loopRound]
      unfold loopStep
      by_cases hupd : (lenv.intervalElapsed ||
        isRefreshCommand lenv.message || needsReconnect st) = true
      all_goals repeat' split
      all_goals simp_all [StepOutcome.exitsProcess, isOkE]
  refine ⟨hstart, hloop, ?_⟩
  intro hscan hcm
  have hfalse : (loopRound scanOutcome lenv st).outcome.exitsProcess =
      false := by
    rcases hex : (loopRound scanOutcome lenv st).outcome.exitsProcess
      with _ | _
    · rfl
    · exfalso
      rcases hloop.mp hex with h | ⟨-, -, -, hD⟩
      · rw [hscan] at h
        simp at h
      · rw [hcm] at hD
        simp at hD
  rcases ho : (loopRound scanOutcome lenv st).outcome with _ | _ | m
  · exact Or.inl rfl
  · exact Or.inr rfl
  · rw [ho] at hfalse
    simp [StepOutcome.exitsProcess] at hfalse

/-- Witness for the amended C9 at concrete startup and loop inputs: a
fully successful startup enters the loop, and the hanging-generation
round against a healthy manager neither kills the process nor leaves the
loop. -/
theorem process_fatality_policy_witness :
    ((startupRun "http://127.0.0.1:12345/sse" (.ok ()) envAllOk
        (.ok ["docker_ps"]) (.ok ()) (.ok ()) (.ok ())).2.isFatal =
        true ↔
      isOkE (Except.ok () : Except Err Unit) = false ∨
        isOkE (getMCPTools envAllOk (.ok ["docker_ps"]) (.ok ()) true
          (newClientManager "http://127.0.0.1:12345/sse")).2 = false ∨
        isOkE (Except.ok () : Except Err Unit) = false ∨
        isOkE (Except.ok () : Except Err Unit) = false) ∧
    ((loopRound (.ok ()) loopEnvHang stConnected).outcome.exitsProcess =
        true ↔
      isOkE (Except.ok () : Except Err Unit) = false ∨
        ((loopEnvHang.message == "exit") = false ∧
          (loopEnvHang.intervalElapsed ||
            isRefreshCommand loopEnvHang.message ||
            needsReconnect stConnected) = true ∧
          isOkE (getMCPTools loopEnvHang.cenv loopEnvHang.enumResult
            (.ok ()) false stConnected).2 = true ∧
          isOkE loopEnvHang.chatModelResult = false)) ∧
    (isOkE (Except.ok () : Except Err Unit) = true →
      isOkE loopEnvHang.chatModelResult = true →
      (loopRound (.ok ()) loopEnvHang stConnected).outcome = .exitLoop ∨
        (loopRound (.ok ()) loopEnvHang stConnected).outcome =
          .nextRound) :=
  process_fatality_policy "http://127.0.0.1:12345/sse" (.ok ()) envAllOk
    (.ok ["docker_ps"]) (.ok ()) (.ok ()) (.ok ()) (.ok ()) loopEnvHang
    stConnected

end McpDocker
